import Mathlib

/-
  Verification of the glpong per-frame simulation engine.

  Shallow embedding of the game loop in src/README.md (the pong variant with
  ball physics).  C++ floats are modelled as exact rationals; the 32-bit
  unsigned frame counter is modelled as a natural number together with
  explicit `% 2^32` arithmetic, its `(unsigned)-1` sentinel being 4294967295.
-/

/-- 2d vector structure (source: `struct vec2`). -/
structure Vec2 where
  x : ℚ
  y : ℚ
deriving DecidableEq, Repr

/-- Source constant `paddleSpeed = 150.0f`. -/
def paddleSpeed : ℚ := 150

/-- Source constant `paddleHeight = 100.0f`. -/
def paddleHeight : ℚ := 100

/-- Source constant `halfPaddleHeight = paddleHeight / 2.0f`. -/
def halfPaddleHeight : ℚ := paddleHeight / 2

/-- Source constant `paddleWidth = 10.0f`. -/
def paddleWidth : ℚ := 10

/-- Source constant `halfPaddleWidth = paddleWidth / 2.0f`. -/
def halfPaddleWidth : ℚ := paddleWidth / 2

/-- Source constant `ballDiameter = 16.0f`. -/
def ballDiameter : ℚ := 16

/-- Source constant `ballRadius = ballDiameter / 2.0f`. -/
def ballRadius : ℚ := ballDiameter / 2

/-- Source constant `offset = ballRadius`. -/
def offset : ℚ := ballRadius

/-- Source constant `paddleBoundary = halfPaddleHeight + offset`. -/
def paddleBoundary : ℚ := halfPaddleHeight + offset

/-- Source global `initBallVelocity = { 150.0f, 150.0f }`. -/
def initBallVelocity : Vec2 := ⟨150, 150⟩

/-- Source local `framesThreshold = 10` (unsigned). -/
def framesThreshold : Nat := 10

/-- The sentinel value of the unsigned counter `framesSinceLastCollision`:
    `(unsigned int)(-1) = 2^32 - 1`. -/
def USentinel : Nat := 4294967295

/-- Per-frame key state consumed by `processInput`
    (W / S move the left paddle, Up / Down the right paddle). -/
structure Keys where
  keyW : Bool
  keyS : Bool
  keyUp : Bool
  keyDown : Bool
deriving DecidableEq, Repr

/-- The mutable simulation state of the source: `paddleOffsets[0]`,
    `paddleOffsets[1]`, `paddleVelocities[0]`, `paddleVelocities[1]`,
    `ballOffset`, `ballVelocity` and the unsigned counter
    `framesSinceLastCollision` (a value in `[0, 2^32)`). -/
structure GameState where
  paddleL : Vec2
  paddleR : Vec2
  paddleVelL : ℚ
  paddleVelR : ℚ
  ballOffset : Vec2
  ballVelocity : Vec2
  framesSinceLastCollision : Nat
deriving DecidableEq, Repr

/-- Source: `if (framesSinceLastCollision != -1) framesSinceLastCollision++;`
    with unsigned (mod `2^32`) increment. -/
def cooldownTick (n : Nat) : Nat :=
  if n = USentinel then n else (n + 1) % 4294967296

/-- Source gate of the paddle-collision block:
    `framesSinceLastCollision >= framesThreshold || framesSinceLastCollision == -1`. -/
def eligible (n : Nat) : Bool :=
  decide (n ≥ framesThreshold) || decide (n = USentinel)

/-- Modelled from the spec: the simplified eligibility test
    `framesSinceLastCollision >= framesThreshold` alone, whose equivalence to
    `eligible` claim C10 asserts. -/
def eligibleSimple (n : Nat) : Bool :=
  decide (n ≥ framesThreshold)

/-- Source: `int i = 0; if (ballOffset.x > scrHeight / 2.0f) i++;`
    Note the comparison is against half the screen HEIGHT. -/
def candidateIdx (H bx : ℚ) : Nat :=
  if bx > H / 2 then 1 else 0

/-- The candidate paddle `paddleOffsets[i]` of the collision check. -/
def candPaddle (H : ℚ) (st : GameState) : Vec2 :=
  if candidateIdx H st.ballOffset.x = 0 then st.paddleL else st.paddleR

/-- The candidate paddle's velocity `paddleVelocities[i]`. -/
def candVel (H : ℚ) (st : GameState) : ℚ :=
  if candidateIdx H st.ballOffset.x = 0 then st.paddleVelL else st.paddleVelR

/-- Source: `vec2 distance = { std::abs(ballOffset.x - paddleOffsets[i].x),
    std::abs(ballOffset.y - paddleOffsets[i].y) };`. -/
def candDist (H : ℚ) (st : GameState) : Vec2 :=
  ⟨|st.ballOffset.x - (candPaddle H st).x|, |st.ballOffset.y - (candPaddle H st).y|⟩

/-- The classification chain of the paddle-collision block: edge-face
    ("length") hit, top/bottom-face ("width") hit, then the corner test with
    the signed-difference resolution.  Returns the `collision` flag and the
    (possibly flipped, not yet amplified) ball velocity. -/
def flipPhase (i : Nat) (px bx : ℚ) (dist v : Vec2) : Bool × Vec2 :=
  let res : Bool × Vec2 :=
    if dist.x ≤ halfPaddleWidth ∧ dist.x ≥ halfPaddleWidth - ballRadius then
      (true, ⟨-v.x, v.y⟩)
    else if dist.y ≤ halfPaddleHeight ∧ dist.y ≥ halfPaddleHeight - ballRadius then
      (true, ⟨v.x, -v.y⟩)
    else (false, v)
  if (dist.x - halfPaddleWidth) * (dist.x - halfPaddleWidth) +
       (dist.y - halfPaddleHeight) * (dist.y - halfPaddleHeight) ≤
       ballRadius * ballRadius ∧ res.1 = false then
    (true,
      if dist.y - halfPaddleHeight ≤
          (if i = 0 then -(px - bx) else px - bx) - halfPaddleWidth then
        ⟨-v.x, v.y⟩
      else ⟨v.x, -v.y⟩)
  else res

/-- `flipPhase` applied at the candidate paddle of a state. -/
def flipResult (H : ℚ) (st : GameState) : Bool × Vec2 :=
  flipPhase (candidateIdx H st.ballOffset.x) (candPaddle H st).x st.ballOffset.x
    (candDist H st) st.ballVelocity

/-- Whether the paddle-collision block detects a collision in state `st`:
    the broad-phase test passes and the classification chain sets the
    `collision` flag. -/
def collisionDetected (H : ℚ) (st : GameState) : Bool :=
  decide ((candDist H st).x ≤ halfPaddleWidth + ballRadius ∧
          (candDist H st).y ≤ halfPaddleHeight + ballRadius)
    && (flipResult H st).1

/-- The body of the paddle-collision block (source lines: candidate paddle,
    distance, broad-phase reject, classification, then on collision
    `ballVelocity.x *= 1.05; ballVelocity.y += k * paddleVelocities[i];
    framesSinceLastCollision = 0;` with `k = 0.3`). -/
def paddleCheck (H : ℚ) (st : GameState) : GameState :=
  if (candDist H st).x ≤ halfPaddleWidth + ballRadius ∧
     (candDist H st).y ≤ halfPaddleHeight + ballRadius then
    if (flipResult H st).1 = true then
      {st with
        ballVelocity := ⟨(flipResult H st).2.x * (21/20),
                         (flipResult H st).2.y + (3/10) * candVel H st⟩,
        framesSinceLastCollision := 0}
    else st
  else st

/-- The left-paddle part of the source `processInput`: the velocity starts at
    0 each frame; the up key (W) either sets velocity `paddleSpeed` or, at the
    boundary, pins `position.y` to `scrHeight - paddleBoundary`; then the down
    key (S) — which tests the possibly already-updated position — either sets
    velocity `-paddleSpeed` or pins `position.y` to `paddleBoundary`, keeping
    the velocity the earlier branch chose.  Returns (position, velocity). -/
def movePaddle (H : ℚ) (kUp kDown : Bool) (p0 : Vec2) : Vec2 × ℚ :=
  let a : Vec2 × ℚ :=
    if kUp then
      if p0.y < H - paddleBoundary then (p0, paddleSpeed)
      else (⟨p0.x, H - paddleBoundary⟩, 0)
    else (p0, 0)
  if kDown then
    if a.1.y > paddleBoundary then (a.1, -paddleSpeed)
    else (⟨a.1.x, paddleBoundary⟩, a.2)
  else a

/-- Source `processInput`: zero both paddle velocities, then for each held
    key either set the paddle's velocity or pin its position to the boundary
    (W / S drive the left paddle, Up / Down the right paddle, in source
    order). -/
def processInput (H : ℚ) (k : Keys) (st : GameState) : GameState :=
  {st with
    paddleL := (movePaddle H k.keyW k.keyS st.paddleL).1,
    paddleVelL := (movePaddle H k.keyW k.keyS st.paddleL).2,
    paddleR := (movePaddle H k.keyUp k.keyDown st.paddleR).1,
    paddleVelR := (movePaddle H k.keyUp k.keyDown st.paddleR).2}

/-- Cooldown increment as a state transformer. -/
def tickCooldown (st : GameState) : GameState :=
  {st with framesSinceLastCollision := cooldownTick st.framesSinceLastCollision}

/-- Source wall collision: `if (ballOffset.y - ballRadius <= 0 ||
    ballOffset.y + ballRadius >= scrHeight) ballVelocity.y *= -1;`. -/
def wallPhase (H : ℚ) (st : GameState) : GameState :=
  if st.ballOffset.y - ballRadius ≤ 0 ∨ st.ballOffset.y + ballRadius ≥ H then
    {st with ballVelocity := ⟨st.ballVelocity.x, -st.ballVelocity.y⟩}
  else st

/-- Source `reset` code: 1 when the ball exits the left bound (right player
    scores), 2 when it exits the right bound (left player scores), else 0. -/
def resetCode (W : ℚ) (st : GameState) : Nat :=
  if st.ballOffset.x - ballRadius ≤ 0 then 1
  else if st.ballOffset.x + ballRadius ≥ W then 2
  else 0

/-- Source scoring/reset block: on a score put the ball in the middle and
    reset its velocity, `x` toward the player that just scored. -/
def scoringPhase (W H : ℚ) (st : GameState) : GameState :=
  if resetCode W st ≠ 0 then
    {st with
      ballOffset := ⟨W / 2, H / 2⟩,
      ballVelocity := ⟨if resetCode W st = 1 then initBallVelocity.x
                       else -initBallVelocity.x,
                       initBallVelocity.y⟩}
  else st

/-- The gated paddle-collision phase: the block body runs only when the
    cooldown counter is eligible. -/
def paddlePhase (H : ℚ) (st : GameState) : GameState :=
  if eligible st.framesSinceLastCollision = true then paddleCheck H st else st

/-- Source integration (the last physics statements of the loop body):
    `paddleOffsets[_].y += paddleVelocities[_] * dt;`
    `ballOffset += ballVelocity * dt;`. -/
def integratePhase (dt : ℚ) (st : GameState) : GameState :=
  {st with
    paddleL := ⟨st.paddleL.x, st.paddleL.y + st.paddleVelL * dt⟩,
    paddleR := ⟨st.paddleR.x, st.paddleR.y + st.paddleVelR * dt⟩,
    ballOffset := ⟨st.ballOffset.x + st.ballVelocity.x * dt,
                   st.ballOffset.y + st.ballVelocity.y * dt⟩}

/-- One frame of the source's render loop (the physics part), translated
    statement by statement in source order: process input, increment the
    cooldown counter, wall collision, scoring/reset, gated paddle collision,
    and finally position integration. -/
def stepFrame (W H dt : ℚ) (k : Keys) (st : GameState) : GameState :=
  let st := processInput H k st
  let st := {st with framesSinceLastCollision := cooldownTick st.framesSinceLastCollision}
  let st := if st.ballOffset.y - ballRadius ≤ 0 ∨ st.ballOffset.y + ballRadius ≥ H then
      {st with ballVelocity := ⟨st.ballVelocity.x, -st.ballVelocity.y⟩}
    else st
  let st := if resetCode W st ≠ 0 then
      {st with
        ballOffset := ⟨W / 2, H / 2⟩,
        ballVelocity := ⟨if resetCode W st = 1 then initBallVelocity.x
                         else -initBallVelocity.x,
                         initBallVelocity.y⟩}
    else st
  let st := if eligible st.framesSinceLastCollision = true then paddleCheck H st else st
  {st with
    paddleL := ⟨st.paddleL.x, st.paddleL.y + st.paddleVelL * dt⟩,
    paddleR := ⟨st.paddleR.x, st.paddleR.y + st.paddleVelR * dt⟩,
    ballOffset := ⟨st.ballOffset.x + st.ballVelocity.x * dt,
                   st.ballOffset.y + st.ballVelocity.y * dt⟩}

/-- One frame with the paddle-collision phase removed; used to express that a
    frame performs no paddle-collision response at all. -/
def stepNoPaddle (W H dt : ℚ) (k : Keys) (st : GameState) : GameState :=
  integratePhase dt (scoringPhase W H (wallPhase H (tickCooldown (processInput H k st))))

/-- Modelled from claim C2's wording (NOT the source): phases in the claimed
    order input, integration, collision engine (cooldown tick, wall, paddle),
    scoring. -/
def stepSpecClaimedOrder (W H dt : ℚ) (k : Keys) (st : GameState) : GameState :=
  scoringPhase W H (paddlePhase H (wallPhase H (tickCooldown (integratePhase dt (processInput H k st)))))

/-
  Helper lemmas: the frame decomposition and which state fields each phase
  leaves untouched.
-/

lemma stepFrame_decomp (W H dt : ℚ) (k : Keys) (st : GameState) :
    stepFrame W H dt k st =
      integratePhase dt (paddlePhase H (scoringPhase W H (wallPhase H
        (tickCooldown (processInput H k st))))) := rfl

lemma movePaddle_x (H : ℚ) (kUp kDown : Bool) (p0 : Vec2) :
    (movePaddle H kUp kDown p0).1.x = p0.x := by
  simp only [movePaddle]
  split_ifs <;> rfl

lemma processInput_ballOffset (H : ℚ) (k : Keys) (st : GameState) :
    (processInput H k st).ballOffset = st.ballOffset := rfl

lemma processInput_ballVelocity (H : ℚ) (k : Keys) (st : GameState) :
    (processInput H k st).ballVelocity = st.ballVelocity := rfl

lemma processInput_frames (H : ℚ) (k : Keys) (st : GameState) :
    (processInput H k st).framesSinceLastCollision = st.framesSinceLastCollision := rfl

lemma processInput_paddleLx (H : ℚ) (k : Keys) (st : GameState) :
    (processInput H k st).paddleL.x = st.paddleL.x :=
  movePaddle_x H k.keyW k.keyS st.paddleL

lemma processInput_paddleRx (H : ℚ) (k : Keys) (st : GameState) :
    (processInput H k st).paddleR.x = st.paddleR.x :=
  movePaddle_x H k.keyUp k.keyDown st.paddleR

lemma tickCooldown_frames (st : GameState) :
    (tickCooldown st).framesSinceLastCollision = cooldownTick st.framesSinceLastCollision := rfl

lemma wallPhase_ballOffset (H : ℚ) (st : GameState) :
    (wallPhase H st).ballOffset = st.ballOffset := by
  unfold wallPhase
  split_ifs <;> rfl

lemma wallPhase_frames (H : ℚ) (st : GameState) :
    (wallPhase H st).framesSinceLastCollision = st.framesSinceLastCollision := by
  unfold wallPhase
  split_ifs <;> rfl

lemma wallPhase_paddleL (H : ℚ) (st : GameState) :
    (wallPhase H st).paddleL = st.paddleL := by
  unfold wallPhase
  split_ifs <;> rfl

lemma wallPhase_paddleR (H : ℚ) (st : GameState) :
    (wallPhase H st).paddleR = st.paddleR := by
  unfold wallPhase
  split_ifs <;> rfl

lemma wallPhase_paddleVelL (H : ℚ) (st : GameState) :
    (wallPhase H st).paddleVelL = st.paddleVelL := by
  unfold wallPhase
  split_ifs <;> rfl

lemma wallPhase_paddleVelR (H : ℚ) (st : GameState) :
    (wallPhase H st).paddleVelR = st.paddleVelR := by
  unfold wallPhase
  split_ifs <;> rfl

lemma scoringPhase_frames (W H : ℚ) (st : GameState) :
    (scoringPhase W H st).framesSinceLastCollision = st.framesSinceLastCollision := by
  unfold scoringPhase
  split_ifs <;> rfl

lemma scoringPhase_paddleL (W H : ℚ) (st : GameState) :
    (scoringPhase W H st).paddleL = st.paddleL := by
  unfold scoringPhase
  split_ifs <;> rfl

lemma scoringPhase_paddleR (W H : ℚ) (st : GameState) :
    (scoringPhase W H st).paddleR = st.paddleR := by
  unfold scoringPhase
  split_ifs <;> rfl

lemma scoringPhase_paddleVelL (W H : ℚ) (st : GameState) :
    (scoringPhase W H st).paddleVelL = st.paddleVelL := by
  unfold scoringPhase
  split_ifs <;> rfl

lemma scoringPhase_paddleVelR (W H : ℚ) (st : GameState) :
    (scoringPhase W H st).paddleVelR = st.paddleVelR := by
  unfold scoringPhase
  split_ifs <;> rfl

lemma paddleCheck_paddleL (H : ℚ) (st : GameState) :
    (paddleCheck H st).paddleL = st.paddleL := by
  unfold paddleCheck
  split_ifs <;> rfl

lemma paddleCheck_paddleR (H : ℚ) (st : GameState) :
    (paddleCheck H st).paddleR = st.paddleR := by
  unfold paddleCheck
  split_ifs <;> rfl

lemma paddleCheck_paddleVelL (H : ℚ) (st : GameState) :
    (paddleCheck H st).paddleVelL = st.paddleVelL := by
  unfold paddleCheck
  split_ifs <;> rfl

lemma paddleCheck_paddleVelR (H : ℚ) (st : GameState) :
    (paddleCheck H st).paddleVelR = st.paddleVelR := by
  unfold paddleCheck
  split_ifs <;> rfl

lemma paddlePhase_paddleL (H : ℚ) (st : GameState) :
    (paddlePhase H st).paddleL = st.paddleL := by
  unfold paddlePhase
  split_ifs with h
  · exact paddleCheck_paddleL H st
  · rfl

lemma paddlePhase_paddleR (H : ℚ) (st : GameState) :
    (paddlePhase H st).paddleR = st.paddleR := by
  unfold paddlePhase
  split_ifs with h
  · exact paddleCheck_paddleR H st
  · rfl

lemma paddlePhase_paddleVelL (H : ℚ) (st : GameState) :
    (paddlePhase H st).paddleVelL = st.paddleVelL := by
  unfold paddlePhase
  split_ifs with h
  · exact paddleCheck_paddleVelL H st
  · rfl

lemma paddlePhase_paddleVelR (H : ℚ) (st : GameState) :
    (paddlePhase H st).paddleVelR = st.paddleVelR := by
  unfold paddlePhase
  split_ifs with h
  · exact paddleCheck_paddleVelR H st
  · rfl

lemma integratePhase_frames (dt : ℚ) (st : GameState) :
    (integratePhase dt st).framesSinceLastCollision = st.framesSinceLastCollision := rfl

lemma integratePhase_ballVelocity (dt : ℚ) (st : GameState) :
    (integratePhase dt st).ballVelocity = st.ballVelocity := rfl

lemma processInput_paddleL (H : ℚ) (k : Keys) (st : GameState) :
    (processInput H k st).paddleL = (movePaddle H k.keyW k.keyS st.paddleL).1 := rfl

lemma processInput_paddleVelL (H : ℚ) (k : Keys) (st : GameState) :
    (processInput H k st).paddleVelL = (movePaddle H k.keyW k.keyS st.paddleL).2 := rfl

lemma processInput_paddleR (H : ℚ) (k : Keys) (st : GameState) :
    (processInput H k st).paddleR = (movePaddle H k.keyUp k.keyDown st.paddleR).1 := rfl

lemma processInput_paddleVelR (H : ℚ) (k : Keys) (st : GameState) :
    (processInput H k st).paddleVelR = (movePaddle H k.keyUp k.keyDown st.paddleR).2 := rfl

lemma tickCooldown_ballOffset (st : GameState) :
    (tickCooldown st).ballOffset = st.ballOffset := rfl

lemma tickCooldown_ballVelocity (st : GameState) :
    (tickCooldown st).ballVelocity = st.ballVelocity := rfl

lemma tickCooldown_paddleL (st : GameState) :
    (tickCooldown st).paddleL = st.paddleL := rfl

lemma tickCooldown_paddleR (st : GameState) :
    (tickCooldown st).paddleR = st.paddleR := rfl

lemma tickCooldown_paddleVelL (st : GameState) :
    (tickCooldown st).paddleVelL = st.paddleVelL := rfl

lemma tickCooldown_paddleVelR (st : GameState) :
    (tickCooldown st).paddleVelR = st.paddleVelR := rfl

lemma integratePhase_ballOffset (dt : ℚ) (st : GameState) :
    (integratePhase dt st).ballOffset =
      ⟨st.ballOffset.x + st.ballVelocity.x * dt,
       st.ballOffset.y + st.ballVelocity.y * dt⟩ := rfl

lemma integratePhase_paddleLy (dt : ℚ) (st : GameState) :
    (integratePhase dt st).paddleL.y = st.paddleL.y + st.paddleVelL * dt := rfl

lemma integratePhase_paddleRy (dt : ℚ) (st : GameState) :
    (integratePhase dt st).paddleR.y = st.paddleR.y + st.paddleVelR * dt := rfl

lemma midState_frames (W H : ℚ) (k : Keys) (st : GameState) :
    (scoringPhase W H (wallPhase H (tickCooldown
      (processInput H k st)))).framesSinceLastCollision =
      cooldownTick st.framesSinceLastCollision := by
  rw [scoringPhase_frames, wallPhase_frames, tickCooldown_frames, processInput_frames]

lemma scoringPhase_right (W H : ℚ) (st : GameState)
    (h1 : ¬(st.ballOffset.x - ballRadius ≤ 0))
    (h2 : st.ballOffset.x + ballRadius ≥ W) :
    scoringPhase W H st =
      {st with ballOffset := ⟨W / 2, H / 2⟩,
               ballVelocity := ⟨-initBallVelocity.x, initBallVelocity.y⟩} := by
  unfold scoringPhase resetCode
  rw [if_neg h1, if_pos h2]
  norm_num

lemma paddleCheck_far (H : ℚ) (st : GameState)
    (h : ¬((candDist H st).x ≤ halfPaddleWidth + ballRadius ∧
           (candDist H st).y ≤ halfPaddleHeight + ballRadius)) :
    paddleCheck H st = st := by
  unfold paddleCheck
  rw [if_neg h]

lemma paddlePhase_far (H : ℚ) (st : GameState)
    (h : ¬((candDist H st).x ≤ halfPaddleWidth + ballRadius ∧
           (candDist H st).y ≤ halfPaddleHeight + ballRadius)) :
    paddlePhase H st = st := by
  unfold paddlePhase
  split_ifs with hg
  · exact paddleCheck_far H st h
  · rfl

lemma paddleCheck_collides (H : ℚ) (st : GameState)
    (h : collisionDetected H st = true) :
    paddleCheck H st =
      {st with
        ballVelocity := ⟨(flipResult H st).2.x * (21/20),
                         (flipResult H st).2.y + (3/10) * candVel H st⟩,
        framesSinceLastCollision := 0} := by
  unfold collisionDetected at h
  rw [Bool.and_eq_true] at h
  obtain ⟨hbroad, hflag⟩ := h
  unfold paddleCheck
  rw [if_pos (of_decide_eq_true hbroad), if_pos hflag]

lemma flipPhase_abs_x (i : Nat) (px bx : ℚ) (dist v : Vec2) :
    |(flipPhase i px bx dist v).2.x| = |v.x| := by
  simp only [flipPhase]
  split_ifs <;> simp [abs_neg]

lemma eligible_false_of_small (n : Nat) (h : n + 1 < framesThreshold) :
    eligible (cooldownTick n) = false := by
  have hne : n ≠ USentinel := by
    intro e
    rw [e] at h
    norm_num [USentinel, framesThreshold] at h
  unfold cooldownTick
  rw [if_neg hne]
  have hmod : (n + 1) % 4294967296 = n + 1 := by
    apply Nat.mod_eq_of_lt
    unfold framesThreshold at h
    omega
  rw [hmod]
  unfold eligible
  have hge : ¬(n + 1 ≥ framesThreshold) := Nat.not_le.mpr h
  have hsent : n + 1 ≠ USentinel := by
    unfold framesThreshold at h
    unfold USentinel
    omega
  simp [hge, hsent]

lemma cooldownTick_iter_zero : ∀ j : Nat, j ≤ USentinel → cooldownTick^[j] 0 = j := by
  intro j
  induction j with
  | zero => intro _; rfl
  | succ n ih =>
    intro h
    have hn : n ≤ USentinel := Nat.le_of_succ_le h
    rw [Function.iterate_succ_apply', ih hn]
    unfold cooldownTick
    have h1 : n ≠ USentinel := by
      unfold USentinel at h ⊢
      omega
    rw [if_neg h1]
    apply Nat.mod_eq_of_lt
    unfold USentinel at h
    omega

/-
  Claim theorems.
-/

/-- C1: the claim says the candidate paddle is the right paddle exactly when
    `ball.position.x > screenWidth / 2`.  The code instead compares against
    `scrHeight / 2`, contradicting its own comment "if ball on right side,
    check with right paddle": on the default 800x600 screen a ball at
    `x = 350` is on the LEFT half (350 is not greater than 800/2), yet the
    code selects the right paddle (index 1) because 350 > 600/2. -/
theorem c1_paddle_selection_bug :
    candidateIdx 600 350 = 1 ∧ ¬((350 : ℚ) > 800 / 2) := by
  constructor
  · norm_num [candidateIdx]
  · norm_num

/-- C2 (amended): the actual fixed per-frame order of the source is: apply
    input intents (with the position pin at the boundary), increment the
    cooldown counter, wall collision, scoring policy, gated paddle collision,
    and position integration LAST; in particular scoring runs before paddle
    collision, and integration happens after collision detection, not
    before. -/
theorem c2_phase_order (W H dt : ℚ) (k : Keys) (st : GameState) :
    stepFrame W H dt k st =
      integratePhase dt (paddlePhase H (scoringPhase W H (wallPhase H
        (tickCooldown (processInput H k st))))) :=
  stepFrame_decomp W H dt k st

/-- C2 counterexample: with the ball at (791, 300) moving (150, 150) on an
    800x600 screen and dt = 1, the source's step leaves the ball at
    (941, 450) (no score is detected because scoring ran before
    integration), while the claimed order (integrate before collision and
    scoring) would detect the right-bound crossing and reset the ball to
    (400, 300). -/
theorem c2_counterexample :
    (stepFrame 800 600 1 ⟨false, false, false, false⟩
       ⟨⟨35, 300⟩, ⟨765, 300⟩, 0, 0, ⟨791, 300⟩, ⟨150, 150⟩, 0⟩).ballOffset ≠
    (stepSpecClaimedOrder 800 600 1 ⟨false, false, false, false⟩
       ⟨⟨35, 300⟩, ⟨765, 300⟩, 0, 0, ⟨791, 300⟩, ⟨150, 150⟩, 0⟩).ballOffset := by
  have e1 :
      (stepFrame 800 600 1 ⟨false, false, false, false⟩
        ⟨⟨35, 300⟩, ⟨765, 300⟩, 0, 0, ⟨791, 300⟩, ⟨150, 150⟩, 0⟩).ballOffset =
      (⟨941, 450⟩ : Vec2) := by
    norm_num [stepFrame, processInput, movePaddle, cooldownTick, eligible, resetCode,
      paddleCheck, candidateIdx, candPaddle, candVel, candDist, flipPhase, flipResult,
      initBallVelocity, paddleSpeed, paddleBoundary, halfPaddleHeight, paddleHeight,
      halfPaddleWidth, paddleWidth, ballRadius, ballDiameter, offset, USentinel,
      framesThreshold]
  have e2 :
      (stepSpecClaimedOrder 800 600 1 ⟨false, false, false, false⟩
        ⟨⟨35, 300⟩, ⟨765, 300⟩, 0, 0, ⟨791, 300⟩, ⟨150, 150⟩, 0⟩).ballOffset =
      (⟨400, 300⟩ : Vec2) := by
    norm_num [stepSpecClaimedOrder, processInput, movePaddle, tickCooldown, cooldownTick,
      eligible, resetCode, wallPhase, scoringPhase, paddlePhase, integratePhase,
      paddleCheck, candidateIdx, candPaddle, candVel, candDist, flipPhase, flipResult,
      initBallVelocity, paddleSpeed, paddleBoundary, halfPaddleHeight, paddleHeight,
      halfPaddleWidth, paddleWidth, ballRadius, ballDiameter, offset, USentinel,
      framesThreshold]
  rw [e1, e2]
  simp only [ne_eq, Vec2.mk.injEq]
  norm_num

/-- C5 (amended): after a collision resets the counter to 0, it increases by
    exactly 1 each collision-free frame while below the sentinel — after `j`
    collision-free frames it equals exactly `j`, for every `j ≤ 2^32 - 1` —
    and the sentinel state is absorbing; but it does NOT avoid the sentinel
    forever: at `j = 2^32 - 1` the counter has wrapped into the inactive
    sentinel value (see the counterexample theorem). -/
theorem c5_count_up (j : Nat) (h : j ≤ USentinel) :
    cooldownTick^[j] 0 = j ∧ cooldownTick USentinel = USentinel := by
  refine ⟨cooldownTick_iter_zero j h, ?_⟩
  unfold cooldownTick
  rw [if_pos rfl]

/-- C5 witness: five collision-free frames from a fresh collision leave the
    counter at exactly 5. -/
theorem c5_witness :
    cooldownTick^[5] 0 = 5 ∧ cooldownTick USentinel = USentinel :=
  c5_count_up 5 (by norm_num [USentinel])

/-- C5 counterexample: starting from 0 (the value set by a paddle collision),
    after exactly `2^32 - 1` collision-free frames the 32-bit counter DOES
    re-enter the inactive sentinel state `USentinel = 2^32 - 1`, refuting
    "it never re-enters the inactive sentinel state in any later frame"
    under the claim's own mod-2^32 arithmetic. -/
theorem c5_counterexample :
    cooldownTick^[4294967295] 0 = USentinel :=
  cooldownTick_iter_zero 4294967295 (by norm_num [USentinel])

/-- C7: in the corner-hit branch (no edge-face match, no top/bottom-face
    match, corner distance within the radius), the response flips
    `velocity.x` exactly when
    `distance.y - halfPaddleHeight <= signedDifference - halfPaddleWidth`
    and flips `velocity.y` otherwise, where
    `signedDifference = paddle.position.x - ball.position.x`, negated
    exactly when the candidate index is 0, i.e. the left paddle — the one
    positioned to the ball's left. -/
theorem c7_corner_resolution (i : Nat) (px bx : ℚ) (dist v : Vec2)
    (h1 : ¬(dist.x ≤ halfPaddleWidth ∧ dist.x ≥ halfPaddleWidth - ballRadius))
    (h2 : ¬(dist.y ≤ halfPaddleHeight ∧ dist.y ≥ halfPaddleHeight - ballRadius))
    (h3 : (dist.x - halfPaddleWidth) * (dist.x - halfPaddleWidth) +
            (dist.y - halfPaddleHeight) * (dist.y - halfPaddleHeight) ≤
            ballRadius * ballRadius) :
    flipPhase i px bx dist v =
      (true,
        if dist.y - halfPaddleHeight ≤
            (if i = 0 then -(px - bx) else px - bx) - halfPaddleWidth then
          (⟨-v.x, v.y⟩ : Vec2)
        else ⟨v.x, -v.y⟩) := by
  simp only [flipPhase]
  rw [if_neg h1, if_neg h2, if_pos ⟨h3, rfl⟩]

/-- C7 witness: a ball at (44, 353) against the left paddle centered at
    (35, 300) gives distance (9, 53): no face interval matches, the corner
    test holds (16 + 9 <= 64), the negated signed difference is 9, and since
    3 <= 4 the x velocity is flipped. -/
theorem c7_witness :
    flipPhase 0 35 44 ⟨9, 53⟩ ⟨150, 150⟩ = (true, ⟨-150, 150⟩) := by
  rw [c7_corner_resolution 0 35 44 ⟨9, 53⟩ ⟨150, 150⟩
    (by norm_num [halfPaddleWidth, paddleWidth, ballRadius, ballDiameter])
    (by norm_num [halfPaddleHeight, paddleHeight, ballRadius, ballDiameter])
    (by norm_num [halfPaddleWidth, paddleWidth, halfPaddleHeight, paddleHeight,
      ballRadius, ballDiameter])]
  norm_num [halfPaddleWidth, paddleWidth, halfPaddleHeight, paddleHeight]

/-- C9: on a score the scoring block sets the ball position to the screen
    center, `velocity.x` to `+initialSpeed.x` when the right player scored
    (ball exited the left bound) and to `-initialSpeed.x` when the left
    player scored (ball exited the right bound), and `velocity.y` to
    `+initialSpeed.y` unconditionally. -/
theorem c9_scoring_reset (W H : ℚ) (s1 s2 : GameState)
    (h1 : s1.ballOffset.x - ballRadius ≤ 0)
    (h2 : ¬(s2.ballOffset.x - ballRadius ≤ 0))
    (h3 : s2.ballOffset.x + ballRadius ≥ W) :
    scoringPhase W H s1 =
      {s1 with ballOffset := ⟨W / 2, H / 2⟩,
               ballVelocity := ⟨initBallVelocity.x, initBallVelocity.y⟩} ∧
    scoringPhase W H s2 =
      {s2 with ballOffset := ⟨W / 2, H / 2⟩,
               ballVelocity := ⟨-initBallVelocity.x, initBallVelocity.y⟩} := by
  constructor
  · unfold scoringPhase resetCode
    rw [if_pos h1]
    norm_num
  · exact scoringPhase_right W H s2 h2 h3

/-- C9 witness: a ball at x = 5 (exited left, right player scores) resets to
    center with velocity (+150, +150); a ball at x = 795 (exited right, left
    player scores) resets to center with velocity (-150, +150). -/
theorem c9_witness :
    scoringPhase 800 600 ⟨⟨35, 300⟩, ⟨765, 300⟩, 0, 0, ⟨5, 300⟩, ⟨-150, 150⟩, 3⟩ =
      {(⟨⟨35, 300⟩, ⟨765, 300⟩, 0, 0, ⟨5, 300⟩, ⟨-150, 150⟩, 3⟩ : GameState) with
        ballOffset := ⟨800 / 2, 600 / 2⟩,
        ballVelocity := ⟨initBallVelocity.x, initBallVelocity.y⟩} ∧
    scoringPhase 800 600 ⟨⟨35, 300⟩, ⟨765, 300⟩, 0, 0, ⟨795, 300⟩, ⟨150, 150⟩, 3⟩ =
      {(⟨⟨35, 300⟩, ⟨765, 300⟩, 0, 0, ⟨795, 300⟩, ⟨150, 150⟩, 3⟩ : GameState) with
        ballOffset := ⟨800 / 2, 600 / 2⟩,
        ballVelocity := ⟨-initBallVelocity.x, initBallVelocity.y⟩} :=
  c9_scoring_reset 800 600
    ⟨⟨35, 300⟩, ⟨765, 300⟩, 0, 0, ⟨5, 300⟩, ⟨-150, 150⟩, 3⟩
    ⟨⟨35, 300⟩, ⟨765, 300⟩, 0, 0, ⟨795, 300⟩, ⟨150, 150⟩, 3⟩
    (by norm_num [ballRadius, ballDiameter])
    (by norm_num [ballRadius, ballDiameter])
    (by norm_num [ballRadius, ballDiameter])

/-- C10: for every 32-bit counter value, the source's eligibility test
    `framesSinceLastCollision >= framesThreshold || framesSinceLastCollision == -1`
    equals the simplified test `framesSinceLastCollision >= framesThreshold`:
    the sentinel disjunct is redundant because the sentinel `2^32 - 1` is
    itself at least the threshold 10. -/
theorem c10_gate_equiv (n : Nat) (h : n < 4294967296) :
    eligible n = eligibleSimple n := by
  unfold eligible eligibleSimple
  by_cases h10 : n ≥ framesThreshold
  · simp [h10]
  · have hs : n ≠ USentinel := by
      unfold framesThreshold at h10
      unfold USentinel
      omega
    simp [h10, hs]

/-- C10 witness: at counter value 0 both tests agree (both are false). -/
theorem c10_witness : eligible 0 = eligibleSimple 0 :=
  c10_gate_equiv 0 (by norm_num)

/-- C3 (amended): when the ball crosses the right bound on the default
    800x600 screen (right paddle at its source x position 765), the scoring
    reset puts the ball at the exact center (400, 300) with velocity
    `(-initialSpeed.x, +initialSpeed.y)` — but integration runs AFTER the
    reset in the same frame, so the post-step ball position is the center
    advanced by one Euler step of the reset velocity,
    `(400 - initialSpeed.x * dt, 300 + initialSpeed.y * dt)`, not the center
    itself; the post-step velocity is exactly `(-initialSpeed.x,
    +initialSpeed.y)`. -/
theorem c3_reset_velocity_and_offset (dt : ℚ) (k : Keys) (st : GameState)
    (hR : st.paddleR.x = 765)
    (hcross : st.ballOffset.x + ballRadius ≥ 800) :
    (stepFrame 800 600 dt k st).ballVelocity =
      ⟨-initBallVelocity.x, initBallVelocity.y⟩ ∧
    (stepFrame 800 600 dt k st).ballOffset =
      ⟨400 - initBallVelocity.x * dt, 300 + initBallVelocity.y * dt⟩ := by
  have h8 : ballRadius = 8 := by norm_num [ballRadius, ballDiameter]
  have hCball :
      (wallPhase 600 (tickCooldown (processInput 600 k st))).ballOffset =
        st.ballOffset := by
    rw [wallPhase_ballOffset, tickCooldown_ballOffset, processInput_ballOffset]
  have hCpRx :
      (wallPhase 600 (tickCooldown (processInput 600 k st))).paddleR.x = 765 := by
    rw [wallPhase_paddleR, tickCooldown_paddleR, processInput_paddleRx, hR]
  have hx8 : st.ballOffset.x ≥ 792 := by
    rw [h8] at hcross
    linarith
  have hno :
      ¬((wallPhase 600 (tickCooldown (processInput 600 k st))).ballOffset.x -
          ballRadius ≤ 0) := by
    rw [hCball, h8]
    linarith
  have hyes :
      (wallPhase 600 (tickCooldown (processInput 600 k st))).ballOffset.x +
        ballRadius ≥ 800 := by
    rw [hCball]
    exact hcross
  have hD := scoringPhase_right 800 600
    (wallPhase 600 (tickCooldown (processInput 600 k st))) hno hyes
  have hdist :
      (candDist 600 (scoringPhase 800 600 (wallPhase 600 (tickCooldown
        (processInput 600 k st))))).x = 365 := by
    rw [hD]
    simp only [candDist, candPaddle, candidateIdx]
    norm_num
    rw [hCpRx, abs_of_nonpos (by norm_num)]
    norm_num
  have hskip :
      paddlePhase 600 (scoringPhase 800 600 (wallPhase 600 (tickCooldown
        (processInput 600 k st)))) =
      scoringPhase 800 600 (wallPhase 600 (tickCooldown
        (processInput 600 k st))) := by
    apply paddlePhase_far
    intro hcon
    obtain ⟨hcx, _⟩ := hcon
    rw [hdist] at hcx
    norm_num [halfPaddleWidth, paddleWidth, ballRadius, ballDiameter] at hcx
  constructor
  · rw [stepFrame_decomp, integratePhase_ballVelocity, hskip, hD]
  · rw [stepFrame_decomp, integratePhase_ballOffset, hskip, hD]
    simp only [Vec2.mk.injEq]
    constructor <;> (norm_num [initBallVelocity]; try ring)

/-- C3 counterexample: the ball at (795, 300) crosses the right bound
    (795 + 8 >= 800), yet after one step with dt = 1 the ball sits at
    (250, 450), not at the exact center (400, 300) the claim demands —
    integration moved it off the center within the same frame. -/
theorem c3_counterexample :
    ((795 : ℚ) + ballRadius ≥ 800) ∧
    (stepFrame 800 600 1 ⟨false, false, false, false⟩
       ⟨⟨35, 300⟩, ⟨765, 300⟩, 0, 0, ⟨795, 300⟩, ⟨150, 150⟩, 0⟩).ballOffset ≠
      ⟨400, 300⟩ := by
  constructor
  · norm_num [ballRadius, ballDiameter]
  · have e :
        (stepFrame 800 600 1 ⟨false, false, false, false⟩
          ⟨⟨35, 300⟩, ⟨765, 300⟩, 0, 0, ⟨795, 300⟩, ⟨150, 150⟩, 0⟩).ballOffset =
        (⟨250, 450⟩ : Vec2) := by
      norm_num [stepFrame, processInput, movePaddle, cooldownTick, eligible, resetCode,
        paddleCheck, candidateIdx, candPaddle, candVel, candDist, flipPhase, flipResult,
        initBallVelocity, paddleSpeed, paddleBoundary, halfPaddleHeight, paddleHeight,
        halfPaddleWidth, paddleWidth, ballRadius, ballDiameter, offset, USentinel,
        framesThreshold]
    rw [e]
    simp only [ne_eq, Vec2.mk.injEq]
    norm_num

/-- C3 witness: from ball (795, 300) with the standard paddle positions and
    dt = 2, the step yields velocity (-150, 150) and position
    (400 - 150*2, 300 + 150*2). -/
theorem c3_witness :
    (stepFrame 800 600 2 ⟨false, false, false, false⟩
       ⟨⟨35, 300⟩, ⟨765, 300⟩, 0, 0, ⟨795, 300⟩, ⟨150, 150⟩, 0⟩).ballVelocity =
      ⟨-initBallVelocity.x, initBallVelocity.y⟩ ∧
    (stepFrame 800 600 2 ⟨false, false, false, false⟩
       ⟨⟨35, 300⟩, ⟨765, 300⟩, 0, 0, ⟨795, 300⟩, ⟨150, 150⟩, 0⟩).ballOffset =
      ⟨400 - initBallVelocity.x * 2, 300 + initBallVelocity.y * 2⟩ :=
  c3_reset_velocity_and_offset 2 ⟨false, false, false, false⟩
    ⟨⟨35, 300⟩, ⟨765, 300⟩, 0, 0, ⟨795, 300⟩, ⟨150, 150⟩, 0⟩
    rfl (by norm_num [ballRadius, ballDiameter])

/-- C4 (amended): the boundary clamp does NOT confine a paddle's `position.y`
    to `[halfPaddleHeight + ballRadius, screenHeight - halfPaddleHeight -
    ballRadius]` within a frame.  What the code does, with the up intent held
    (and the down key released) on the default 600-high screen: a paddle
    strictly below the upper limit `600 - paddleBoundary` gets velocity
    `paddleSpeed` and integrates to `y + paddleSpeed * dt` — overshooting the
    limit by up to `paddleSpeed * dt` — while a paddle at or beyond the limit
    is pinned to exactly `600 - paddleBoundary` (so holding "up" at the
    boundary is idempotent across repeated steps). -/
theorem c4_clamp_behavior (dt : ℚ) (k : Keys) (st : GameState)
    (hW : k.keyW = true) (hS : k.keyS = false)
    (hU : k.keyUp = true) (hD : k.keyDown = false) :
    (stepFrame 800 600 dt k st).paddleL.y =
      (if st.paddleL.y < 600 - paddleBoundary then st.paddleL.y + paddleSpeed * dt
       else 600 - paddleBoundary) ∧
    (stepFrame 800 600 dt k st).paddleR.y =
      (if st.paddleR.y < 600 - paddleBoundary then st.paddleR.y + paddleSpeed * dt
       else 600 - paddleBoundary) := by
  have key : ∀ p0 : Vec2,
      movePaddle 600 true false p0 =
        (if p0.y < 600 - paddleBoundary then (p0, paddleSpeed)
         else (⟨p0.x, 600 - paddleBoundary⟩, 0)) := by
    intro p0
    simp only [movePaddle]
    split_ifs <;> simp_all
  constructor
  · rw [stepFrame_decomp, integratePhase_paddleLy, paddlePhase_paddleL,
      scoringPhase_paddleL, wallPhase_paddleL, tickCooldown_paddleL,
      processInput_paddleL, paddlePhase_paddleVelL, scoringPhase_paddleVelL,
      wallPhase_paddleVelL, tickCooldown_paddleVelL, processInput_paddleVelL,
      hW, hS, key st.paddleL]
    split_ifs <;> simp
  · rw [stepFrame_decomp, integratePhase_paddleRy, paddlePhase_paddleR,
      scoringPhase_paddleR, wallPhase_paddleR, tickCooldown_paddleR,
      processInput_paddleR, paddlePhase_paddleVelR, scoringPhase_paddleVelR,
      wallPhase_paddleVelR, tickCooldown_paddleVelR, processInput_paddleVelR,
      hU, hD, key st.paddleR]
    split_ifs <;> simp

/-- C4 counterexample: the left paddle starts inside the claimed interval at
    y = 541 (upper limit 600 - 50 - 8 = 542); holding the up key with dt = 1
    moves it to 691 after the step, violating the claimed invariant
    `position.y <= screenHeight - halfPaddleHeight - ballRadius`. -/
theorem c4_counterexample :
    (stepFrame 800 600 1 ⟨true, false, false, false⟩
       ⟨⟨35, 541⟩, ⟨765, 300⟩, 0, 0, ⟨200, 100⟩, ⟨150, 150⟩, 0⟩).paddleL.y = 691 ∧
    ¬((691 : ℚ) ≤ 600 - halfPaddleHeight - ballRadius) := by
  constructor
  · norm_num [stepFrame, processInput, movePaddle, cooldownTick, eligible, resetCode,
      paddleCheck, candidateIdx, candPaddle, candVel, candDist, flipPhase, flipResult,
      initBallVelocity, paddleSpeed, paddleBoundary, halfPaddleHeight, paddleHeight,
      halfPaddleWidth, paddleWidth, ballRadius, ballDiameter, offset, USentinel,
      framesThreshold]
  · norm_num [halfPaddleHeight, paddleHeight, ballRadius, ballDiameter]

/-- C4 witness: the left paddle at y = 541 overshoots to 541 + 150, while the
    right paddle already at the limit y = 542 is pinned to 542. -/
theorem c4_witness :
    (stepFrame 800 600 1 ⟨true, false, true, false⟩
       ⟨⟨35, 541⟩, ⟨765, 542⟩, 0, 0, ⟨200, 100⟩, ⟨150, 150⟩, 0⟩).paddleL.y =
      (if (541 : ℚ) < 600 - paddleBoundary then (541 : ℚ) + paddleSpeed * 1
       else 600 - paddleBoundary) ∧
    (stepFrame 800 600 1 ⟨true, false, true, false⟩
       ⟨⟨35, 541⟩, ⟨765, 542⟩, 0, 0, ⟨200, 100⟩, ⟨150, 150⟩, 0⟩).paddleR.y =
      (if (542 : ℚ) < 600 - paddleBoundary then (542 : ℚ) + paddleSpeed * 1
       else 600 - paddleBoundary) :=
  c4_clamp_behavior 1 ⟨true, false, true, false⟩
    ⟨⟨35, 541⟩, ⟨765, 542⟩, 0, 0, ⟨200, 100⟩, ⟨150, 150⟩, 0⟩ rfl rfl rfl rfl

/-- C6: cooldown gating.  First part: in a frame whose incremented counter is
    still below the threshold (counter + 1 < 10, i.e. frames t+1 .. t+9 after
    a collision at frame t), the whole step equals the step with the
    paddle-collision phase removed — no flip and no amplification occur, no
    matter where the ball is.  Second part: when the incremented counter is
    eligible (>= 10 or the sentinel) and the geometry detects an overlap, the
    paddle-collision response runs and the post-step counter is 0. -/
theorem c6_cooldown_gating (W H dt : ℚ) (k : Keys) (s1 s2 : GameState)
    (h1 : s1.framesSinceLastCollision + 1 < framesThreshold)
    (h2 : eligible (cooldownTick s2.framesSinceLastCollision) = true)
    (h3 : collisionDetected H (scoringPhase W H (wallPhase H (tickCooldown
            (processInput H k s2)))) = true) :
    stepFrame W H dt k s1 = stepNoPaddle W H dt k s1 ∧
    stepFrame W H dt k s2 =
      integratePhase dt (paddleCheck H (scoringPhase W H (wallPhase H (tickCooldown
        (processInput H k s2))))) ∧
    (stepFrame W H dt k s2).framesSinceLastCollision = 0 := by
  have hg1 : eligible ((scoringPhase W H (wallPhase H (tickCooldown
      (processInput H k s1)))).framesSinceLastCollision) = false := by
    rw [midState_frames]
    exact eligible_false_of_small _ h1
  have part1 : stepFrame W H dt k s1 = stepNoPaddle W H dt k s1 := by
    rw [stepFrame_decomp]
    unfold stepNoPaddle
    congr 1
    simp [paddlePhase, hg1]
  have hg2 : eligible ((scoringPhase W H (wallPhase H (tickCooldown
      (processInput H k s2)))).framesSinceLastCollision) = true := by
    rw [midState_frames]
    exact h2
  have part2 : stepFrame W H dt k s2 =
      integratePhase dt (paddleCheck H (scoringPhase W H (wallPhase H (tickCooldown
        (processInput H k s2))))) := by
    rw [stepFrame_decomp]
    congr 1
    simp [paddlePhase, hg2]
  refine ⟨part1, part2, ?_⟩
  rw [part2, integratePhase_frames, paddleCheck_collides H _ h3]

/-- C6 witness: a state with counter 0 (one frame after a collision) skips
    the paddle phase entirely; a state with counter 20 and the ball
    overlapping the right paddle's face runs the response and ends the frame
    with counter 0. -/
theorem c6_witness :
    stepFrame 800 600 1 ⟨false, false, false, false⟩
        ⟨⟨35, 300⟩, ⟨765, 300⟩, 0, 0, ⟨200, 100⟩, ⟨150, 150⟩, 0⟩ =
      stepNoPaddle 800 600 1 ⟨false, false, false, false⟩
        ⟨⟨35, 300⟩, ⟨765, 300⟩, 0, 0, ⟨200, 100⟩, ⟨150, 150⟩, 0⟩ ∧
    stepFrame 800 600 1 ⟨false, false, false, false⟩
        ⟨⟨35, 300⟩, ⟨765, 300⟩, 0, 0, ⟨760, 300⟩, ⟨150, 150⟩, 20⟩ =
      integratePhase 1 (paddleCheck 600 (scoringPhase 800 600 (wallPhase 600
        (tickCooldown (processInput 600 ⟨false, false, false, false⟩
          ⟨⟨35, 300⟩, ⟨765, 300⟩, 0, 0, ⟨760, 300⟩, ⟨150, 150⟩, 20⟩))))) ∧
    (stepFrame 800 600 1 ⟨false, false, false, false⟩
        ⟨⟨35, 300⟩, ⟨765, 300⟩, 0, 0, ⟨760, 300⟩, ⟨150, 150⟩, 20⟩).framesSinceLastCollision = 0 :=
  c6_cooldown_gating 800 600 1 ⟨false, false, false, false⟩
    ⟨⟨35, 300⟩, ⟨765, 300⟩, 0, 0, ⟨200, 100⟩, ⟨150, 150⟩, 0⟩
    ⟨⟨35, 300⟩, ⟨765, 300⟩, 0, 0, ⟨760, 300⟩, ⟨150, 150⟩, 20⟩
    (by norm_num [framesThreshold])
    (by norm_num [eligible, cooldownTick, USentinel, framesThreshold])
    (by norm_num [collisionDetected, scoringPhase, wallPhase, tickCooldown, processInput,
      movePaddle, cooldownTick, resetCode, candidateIdx, candPaddle, candVel, candDist,
      flipPhase, flipResult, initBallVelocity, paddleSpeed, paddleBoundary,
      halfPaddleHeight, paddleHeight, halfPaddleWidth, paddleWidth, ballRadius,
      ballDiameter, offset, USentinel, framesThreshold])

/-- C8: on every detected paddle collision the block multiplies the (already
    flipped) `velocity.x` by the amplification factor 1.05 = 21/20, adds
    0.3 * paddleVelocity of the candidate paddle to `velocity.y`, and resets
    the cooldown counter to 0; consequently, when `velocity.x` is nonzero its
    magnitude strictly increases (the flip preserves magnitude and no cap is
    applied). -/
theorem c8_collision_response (H : ℚ) (st : GameState)
    (h : collisionDetected H st = true) (hx : st.ballVelocity.x ≠ 0) :
    paddleCheck H st =
      {st with
        ballVelocity := ⟨(flipResult H st).2.x * (21/20),
                         (flipResult H st).2.y + (3/10) * candVel H st⟩,
        framesSinceLastCollision := 0} ∧
    |(paddleCheck H st).ballVelocity.x| > |st.ballVelocity.x| := by
  refine ⟨paddleCheck_collides H st h, ?_⟩
  rw [paddleCheck_collides H st h]
  show |(flipResult H st).2.x * (21/20)| > |st.ballVelocity.x|
  rw [abs_mul]
  have hm : |(flipResult H st).2.x| = |st.ballVelocity.x| := by
    unfold flipResult
    exact flipPhase_abs_x _ _ _ _ _
  rw [hm]
  have h0 : (0 : ℚ) < |st.ballVelocity.x| := abs_pos.mpr hx
  have h21 : |((21 : ℚ) / 20)| = 21 / 20 := by norm_num
  rw [h21]
  linarith

/-- C8 witness: the ball at (760, 300) against the right paddle at (765, 300)
    is an edge-face hit; the response amplifies the flipped x velocity by
    21/20, adds 0.3 times the paddle velocity to y, resets the counter, and
    strictly increases the x speed. -/
theorem c8_witness :
    paddleCheck 600 ⟨⟨35, 300⟩, ⟨765, 300⟩, 0, 0, ⟨760, 300⟩, ⟨150, 150⟩, 20⟩ =
      {(⟨⟨35, 300⟩, ⟨765, 300⟩, 0, 0, ⟨760, 300⟩, ⟨150, 150⟩, 20⟩ : GameState) with
        ballVelocity :=
          ⟨(flipResult 600 ⟨⟨35, 300⟩, ⟨765, 300⟩, 0, 0, ⟨760, 300⟩, ⟨150, 150⟩, 20⟩).2.x * (21/20),
           (flipResult 600 ⟨⟨35, 300⟩, ⟨765, 300⟩, 0, 0, ⟨760, 300⟩, ⟨150, 150⟩, 20⟩).2.y +
             (3/10) * candVel 600 ⟨⟨35, 300⟩, ⟨765, 300⟩, 0, 0, ⟨760, 300⟩, ⟨150, 150⟩, 20⟩⟩,
        framesSinceLastCollision := 0} ∧
    |(paddleCheck 600 ⟨⟨35, 300⟩, ⟨765, 300⟩, 0, 0, ⟨760, 300⟩, ⟨150, 150⟩, 20⟩).ballVelocity.x| >
      |(⟨⟨35, 300⟩, ⟨765, 300⟩, 0, 0, ⟨760, 300⟩, ⟨150, 150⟩, 20⟩ : GameState).ballVelocity.x| :=
  c8_collision_response 600 ⟨⟨35, 300⟩, ⟨765, 300⟩, 0, 0, ⟨760, 300⟩, ⟨150, 150⟩, 20⟩
    (by norm_num [collisionDetected, candidateIdx, candPaddle, candVel, candDist,
      flipPhase, flipResult, halfPaddleHeight, paddleHeight, halfPaddleWidth,
      paddleWidth, ballRadius, ballDiameter])
    (by norm_num)
